import Mathlib

/-
Verification of the row/column transcoding bridge of actix-todo-sqlx
(src/model/serde.rs): the serde `Deserializer` implementations for `DbRow`
(record-level shape negotiation), `DbColumn` (column-level primitive decode)
and the shared cursor `MapSeqqDeserializer` (ordinal and named traversal).

Shallow embedding conventions:
 * Rust `Result<_, Error>` together with Rust panics (`unimplemented!()`,
   `unwrap()` on `Err`) is modelled by `Outcome`.
 * The raw Postgres column payload (`PgValueRef`) is modelled by `Raw`; the
   external sqlx `Decode` implementations are modelled by the `decode*`
   functions below (payload must be a non-null value of the requested shape,
   otherwise the decode fails with a cause string, per the producer interface
   the spec assumes: decode or fail).
 * A serde visitor is a record of handler functions, one per `visit_*` method
   the source can invoke; a `DeserializeSeed` driving a `DbColumn` is an
   arbitrary function `Column → Outcome α`, since `DbColumn` is a plain
   wrapper around the raw column value.
-/

namespace ActixTodoSqlx

/-- Error enum of src/model/serde.rs. `Custom` is the protocol-error arm
(serde `custom` messages, e.g. the tuple length mismatch), `DecodeError`
wraps the cause of a failed primitive decode (`BoxDynError`, modelled as a
string), `SqlxError` wraps a backing-store error. -/
inductive Error where
  | Custom (msg : String)
  | DecodeError (cause : String)
  | SqlxError (cause : String)
deriving DecidableEq, Repr

/-- Result of running a deserializer entry point: normal return value,
returned `Error`, or a Rust panic (with its message). -/
inductive Outcome (V : Type) where
  | ok (v : V)
  | err (e : Error)
  | panic (msg : String)
deriving DecidableEq, Repr

/-- Monadic map, mirroring Rust `Result::map` (errors and panics pass through). -/
def Outcome.map (f : α → β) : Outcome α → Outcome β
  | .ok a => .ok (f a)
  | .err e => .err e
  | .panic m => .panic m

/-- Raw column payload as handed out by the store (model of `PgValueRef`
contents): either SQL NULL or a scalar value. `int nbytes v` is an
`nbytes`-byte signed integer payload holding value `v`; `float4`/`float8`
payloads are kept as opaque bit patterns. -/
inductive Raw where
  | null
  | int (nbytes : Nat) (v : Int)
  | text (s : String)
  | boolean (b : Bool)
  | float4 (bits : Nat)
  | float8 (bits : Nat)
  | bytea (bs : List Nat)
deriving DecidableEq, Repr

/-- Null predicate on the raw payload (model of `ValueRef::is_null`). -/
def Raw.isNull : Raw → Bool
  | .null => true
  | _ => false

/-- One column of a result row: name, the store's runtime type tag (the
string sqlx reports via `TypeInfo::name`, e.g. "INT8"), and raw payload. -/
structure Column where
  name : String
  typeTag : String
  value : Raw
deriving DecidableEq, Repr

/-- Model of the external sqlx `Decode` impl for `i8` (1-byte integer). -/
def decodeI8 : Raw → Except String Int
  | .int 1 v => .ok v
  | .null => .error "unexpected null"
  | _ => .error "mismatched types for i8"

/-- Model of the external sqlx `Decode` impl for `i16` (2-byte integer). -/
def decodeI16 : Raw → Except String Int
  | .int 2 v => .ok v
  | .null => .error "unexpected null"
  | _ => .error "mismatched types for i16"

/-- Model of the external sqlx `Decode` impl for `i32` (4-byte integer). -/
def decodeI32 : Raw → Except String Int
  | .int 4 v => .ok v
  | .null => .error "unexpected null"
  | _ => .error "mismatched types for i32"

/-- Model of the external sqlx `Decode` impl for `i64` (8-byte integer). -/
def decodeI64 : Raw → Except String Int
  | .int 8 v => .ok v
  | .null => .error "unexpected null"
  | _ => .error "mismatched types for i64"

/-- Model of the external sqlx `Decode` impl for `bool`. -/
def decodeBool : Raw → Except String Bool
  | .boolean b => .ok b
  | .null => .error "unexpected null"
  | _ => .error "mismatched types for bool"

/-- Model of the external sqlx `Decode` impl for `&str` / `String`. -/
def decodeText : Raw → Except String String
  | .text s => .ok s
  | .null => .error "unexpected null"
  | _ => .error "mismatched types for text"

/-- Model of the external sqlx `Decode` impl for `f32`. -/
def decodeF32 : Raw → Except String Nat
  | .float4 bits => .ok bits
  | .null => .error "unexpected null"
  | _ => .error "mismatched types for f32"

/-- Model of the external sqlx `Decode` impl for `f64`. -/
def decodeF64 : Raw → Except String Nat
  | .float8 bits => .ok bits
  | .null => .error "unexpected null"
  | _ => .error "mismatched types for f64"

/-- Model of the external sqlx `Decode` impl for byte slices / `Vec<u8>`. -/
def decodeBytea : Raw → Except String (List Nat)
  | .bytea bs => .ok bs
  | .null => .error "unexpected null"
  | _ => .error "mismatched types for bytea"

/-- Column deserializer `DbColumn` of src/model/serde.rs: a wrapper around
one raw column value. -/
structure DbColumn where
  column : Column

/-- Visitor handed to `DbColumn`'s deserializer methods: one handler per
`visit_*` call the source can make. `visitU64` is never invoked by the code
under src/; it is included so the spec-side u64 behaviour is expressible. -/
structure ColumnVisitor (V : Type) where
  visitBool : Bool → Outcome V
  visitI8 : Int → Outcome V
  visitI16 : Int → Outcome V
  visitI32 : Int → Outcome V
  visitI64 : Int → Outcome V
  visitU64 : Nat → Outcome V
  visitF32 : Nat → Outcome V
  visitF64 : Nat → Outcome V
  visitStr : String → Outcome V
  visitString : String → Outcome V
  visitBytes : List Nat → Outcome V
  visitByteBuf : List Nat → Outcome V
  visitChar : Char → Outcome V
  visitNone : Outcome V
  visitSome : DbColumn → Outcome V
  visitUnit : Outcome V
  visitNewtypeStruct : DbColumn → Outcome V

/-- Body of the `delegate_decode!` macro arms:
`visitor.visit_X(Decode::decode(self.column).map_err(Error::DecodeError)?)`. -/
def decodeVisit (dec : Raw → Except String β) (visit : β → Outcome V)
    (d : DbColumn) : Outcome V :=
  match dec d.column.value with
  | .ok b => visit b
  | .error e => .err (.DecodeError e)

/-- DbColumn::deserialize_bool (from `delegate_decode!`). -/
def DbColumn.deserialize_bool (d : DbColumn) (v : ColumnVisitor V) : Outcome V :=
  decodeVisit decodeBool v.visitBool d

/-- DbColumn::deserialize_i8 (from `delegate_decode!`). -/
def DbColumn.deserialize_i8 (d : DbColumn) (v : ColumnVisitor V) : Outcome V :=
  decodeVisit decodeI8 v.visitI8 d

/-- DbColumn::deserialize_i16 (from `delegate_decode!`). -/
def DbColumn.deserialize_i16 (d : DbColumn) (v : ColumnVisitor V) : Outcome V :=
  decodeVisit decodeI16 v.visitI16 d

/-- DbColumn::deserialize_i32 (from `delegate_decode!`). -/
def DbColumn.deserialize_i32 (d : DbColumn) (v : ColumnVisitor V) : Outcome V :=
  decodeVisit decodeI32 v.visitI32 d

/-- DbColumn::deserialize_i64 (from `delegate_decode!`). -/
def DbColumn.deserialize_i64 (d : DbColumn) (v : ColumnVisitor V) : Outcome V :=
  decodeVisit decodeI64 v.visitI64 d

/-- DbColumn::deserialize_u8 (from `delegate_decode!`): the macro arm is
`deserialize_u8|visit_i8`, so the decode target inferred for
`Decode::decode` is `i8` and the value is surfaced through `visit_i8`. -/
def DbColumn.deserialize_u8 (d : DbColumn) (v : ColumnVisitor V) : Outcome V :=
  decodeVisit decodeI8 v.visitI8 d

/-- DbColumn::deserialize_u16 (from `delegate_decode!`, arm
`deserialize_u16|visit_i16`). -/
def DbColumn.deserialize_u16 (d : DbColumn) (v : ColumnVisitor V) : Outcome V :=
  decodeVisit decodeI16 v.visitI16 d

/-- DbColumn::deserialize_u32 (from `delegate_decode!`, arm
`deserialize_u32|visit_i32`). -/
def DbColumn.deserialize_u32 (d : DbColumn) (v : ColumnVisitor V) : Outcome V :=
  decodeVisit decodeI32 v.visitI32 d

/-- DbColumn::deserialize_u64 (from `delegate_decode!`, arm
`deserialize_u64|visit_i64`). -/
def DbColumn.deserialize_u64 (d : DbColumn) (v : ColumnVisitor V) : Outcome V :=
  decodeVisit decodeI64 v.visitI64 d

/-- DbColumn::deserialize_f32 (from `delegate_decode!`). -/
def DbColumn.deserialize_f32 (d : DbColumn) (v : ColumnVisitor V) : Outcome V :=
  decodeVisit decodeF32 v.visitF32 d

/-- DbColumn::deserialize_f64 (from `delegate_decode!`). -/
def DbColumn.deserialize_f64 (d : DbColumn) (v : ColumnVisitor V) : Outcome V :=
  decodeVisit decodeF64 v.visitF64 d

/-- DbColumn::deserialize_str (from `delegate_decode!`). -/
def DbColumn.deserialize_str (d : DbColumn) (v : ColumnVisitor V) : Outcome V :=
  decodeVisit decodeText v.visitStr d

/-- DbColumn::deserialize_string (from `delegate_decode!`). -/
def DbColumn.deserialize_string (d : DbColumn) (v : ColumnVisitor V) : Outcome V :=
  decodeVisit decodeText v.visitString d

/-- DbColumn::deserialize_bytes (from `delegate_decode!`). -/
def DbColumn.deserialize_bytes (d : DbColumn) (v : ColumnVisitor V) : Outcome V :=
  decodeVisit decodeBytea v.visitBytes d

/-- DbColumn::deserialize_byte_buf (from `delegate_decode!`). -/
def DbColumn.deserialize_byte_buf (d : DbColumn) (v : ColumnVisitor V) : Outcome V :=
  decodeVisit decodeBytea v.visitByteBuf d

/-- DbColumn::deserialize_any: dispatch on the type tag reported by
`type_info().name()`; tags outside the table hit `unimplemented!()`,
which panics. -/
def DbColumn.deserialize_any (d : DbColumn) (v : ColumnVisitor V) : Outcome V :=
  match d.column.typeTag with
  | "INT8" => d.deserialize_i64 v
  | "INT4" => d.deserialize_i32 v
  | "INT2" => d.deserialize_i16 v
  | "TEXT" => d.deserialize_str v
  | "VARCHAR" => d.deserialize_str v
  | "BOOL" => d.deserialize_bool v
  | _ => .panic "not implemented"

/-- DbColumn::deserialize_char: decode the payload as `i8`; then
`u8::try_from(value).unwrap()` panics on a negative value and otherwise
yields the code point `value as char`. -/
def DbColumn.deserialize_char (d : DbColumn) (v : ColumnVisitor V) : Outcome V :=
  match decodeI8 d.column.value with
  | .error e => .err (.DecodeError e)
  | .ok n =>
    if n < 0 then .panic "called unwrap on an Err value: TryFromIntError"
    else v.visitChar (Char.ofNat n.toNat)

/-- DbColumn::deserialize_option: null predicate on the raw payload; null
yields `visit_none`, otherwise `visit_some(self)`. -/
def DbColumn.deserialize_option (d : DbColumn) (v : ColumnVisitor V) : Outcome V :=
  if d.column.value.isNull then v.visitNone else v.visitSome d

/-- DbColumn::deserialize_unit: null yields `visit_none`, otherwise
`visit_unit`. -/
def DbColumn.deserialize_unit (d : DbColumn) (v : ColumnVisitor V) : Outcome V :=
  if d.column.value.isNull then v.visitNone else v.visitUnit

/-- DbColumn::deserialize_unit_struct: delegates to `deserialize_unit`. -/
def DbColumn.deserialize_unit_struct (d : DbColumn) (_nm : String)
    (v : ColumnVisitor V) : Outcome V :=
  d.deserialize_unit v

/-- DbColumn::deserialize_newtype_struct: `visit_newtype_struct(self)`. -/
def DbColumn.deserialize_newtype_struct (d : DbColumn) (_nm : String)
    (v : ColumnVisitor V) : Outcome V :=
  v.visitNewtypeStruct d

/-- DbColumn::deserialize_seq: `unimplemented!()`. -/
def DbColumn.deserialize_seq (_d : DbColumn) (_v : ColumnVisitor V) : Outcome V :=
  .panic "not implemented"

/-- DbColumn::deserialize_tuple: `unimplemented!()`. -/
def DbColumn.deserialize_tuple (_d : DbColumn) (_len : Nat)
    (_v : ColumnVisitor V) : Outcome V :=
  .panic "not implemented"

/-- DbColumn::deserialize_tuple_struct: `unimplemented!()`. -/
def DbColumn.deserialize_tuple_struct (_d : DbColumn) (_nm : String) (_len : Nat)
    (_v : ColumnVisitor V) : Outcome V :=
  .panic "not implemented"

/-- DbColumn::deserialize_map: `unimplemented!()`. -/
def DbColumn.deserialize_map (_d : DbColumn) (_v : ColumnVisitor V) : Outcome V :=
  .panic "not implemented"

/-- DbColumn::deserialize_struct: `unimplemented!()`. -/
def DbColumn.deserialize_struct (_d : DbColumn) (_nm : String)
    (_fields : List String) (_v : ColumnVisitor V) : Outcome V :=
  .panic "not implemented"

/-- DbColumn::deserialize_enum: `unimplemented!()`. -/
def DbColumn.deserialize_enum (_d : DbColumn) (_nm : String)
    (_variants : List String) (_v : ColumnVisitor V) : Outcome V :=
  .panic "not implemented"

/-- DbColumn::deserialize_identifier: `unimplemented!()`. -/
def DbColumn.deserialize_identifier (_d : DbColumn)
    (_v : ColumnVisitor V) : Outcome V :=
  .panic "not implemented"

/-- DbColumn::deserialize_ignored_any: `unimplemented!()`. -/
def DbColumn.deserialize_ignored_any (_d : DbColumn)
    (_v : ColumnVisitor V) : Outcome V :=
  .panic "not implemented"

/-- Record deserializer `DbRow` of src/model/serde.rs: a wrapper around one
query-result row (`PgRow`), modelled by its ordered column list. -/
structure DbRow where
  columns : List Column
deriving DecidableEq, Repr

/-- Record width (sqlx `Row::len`, the column count). -/
def DbRow.width (r : DbRow) : Nat := r.columns.length

/-- Model of sqlx `PgRow::try_get_raw(index)`: the raw value at the index, or
`ColumnIndexOutOfBounds` (converted into `Error::SqlxError` by `?`) when the
index is not below the width. -/
def DbRow.try_get_raw (r : DbRow) (i : Nat) : Except Error Column :=
  match r.columns[i]? with
  | some c => .ok c
  | none => .error (.SqlxError "ColumnIndexOutOfBounds")

/-- Shared traversal cursor `MapSeqqDeserializer` of src/model/serde.rs:
a reference to the row plus one monotonic index. -/
structure MapSeqqState where
  inner : DbRow
  index : Nat
deriving DecidableEq, Repr

/-- SeqAccess::next_element_seed on MapSeqqDeserializer. The seed argument is
modelled as the function `Column → Outcome α` it induces on the wrapped raw
column (`T::deserialize(seed, DbColumn { column })`). The state is returned
alongside the outcome, mirroring the `&mut self` receiver: note the index is
already advanced when the seed itself fails. -/
def MapSeqqDeserializer.next_element_seed (dec : Column → Outcome α)
    (s : MapSeqqState) : Outcome (Option α) × MapSeqqState :=
  if s.inner.width ≤ s.index then (.ok none, s)
  else
    match s.inner.try_get_raw s.index with
    | .error e => (.err e, s)
    | .ok c => ((dec c).map some, ⟨s.inner, s.index + 1⟩)

/-- MapAccess::next_key_seed on MapSeqqDeserializer: end-of-data when the
index reaches the width; otherwise the seed deserializes the raw column name
(an `&str` deserializer), with the index left untouched. -/
def MapSeqqDeserializer.next_key_seed (kd : String → Outcome κ)
    (s : MapSeqqState) : Outcome (Option κ) × MapSeqqState :=
  if s.inner.width ≤ s.index then (.ok none, s)
  else
    match s.inner.columns[s.index]? with
    | some c => ((kd c.name).map some, s)
    | none => (.ok none, s)

/-- MapAccess::next_value_seed on MapSeqqDeserializer: no end-of-data check;
fetch the raw value at the current index (`?` on failure), advance the index
by one, then run the seed on the wrapped column. -/
def MapSeqqDeserializer.next_value_seed (vd : Column → Outcome α)
    (s : MapSeqqState) : Outcome α × MapSeqqState :=
  match s.inner.try_get_raw s.index with
  | .error e => (.err e, s)
  | .ok c => (vd c, ⟨s.inner, s.index + 1⟩)

/-- Visitor handed to `DbRow`'s deserializer methods. The sequence and map
handlers receive the freshly created cursor and may drive it through the
accessor functions above. -/
structure RowVisitor (V : Type) where
  visitSeq : MapSeqqState → Outcome V
  visitMap : MapSeqqState → Outcome V
  visitSome : DbRow → Outcome V
  visitNewtypeStruct : DbRow → Outcome V
  visitNone : Outcome V

/-- DbRow::deserialize_seq: `visit_seq` on a cursor starting at index 0. -/
def DbRow.deserialize_seq (r : DbRow) (v : RowVisitor V) : Outcome V :=
  v.visitSeq ⟨r, 0⟩

/-- DbRow::deserialize_any: delegates to `deserialize_seq`. -/
def DbRow.deserialize_any (r : DbRow) (v : RowVisitor V) : Outcome V :=
  r.deserialize_seq v

/-- DbRow::deserialize_bool (from `delegate_to_deserialize_any!`). -/
def DbRow.deserialize_bool (r : DbRow) (v : RowVisitor V) : Outcome V :=
  r.deserialize_any v

/-- DbRow::deserialize_char (from `delegate_to_deserialize_any!`). -/
def DbRow.deserialize_char (r : DbRow) (v : RowVisitor V) : Outcome V :=
  r.deserialize_any v

/-- DbRow::deserialize_i8 (from `delegate_to_deserialize_any!`). -/
def DbRow.deserialize_i8 (r : DbRow) (v : RowVisitor V) : Outcome V :=
  r.deserialize_any v

/-- DbRow::deserialize_i16 (from `delegate_to_deserialize_any!`). -/
def DbRow.deserialize_i16 (r : DbRow) (v : RowVisitor V) : Outcome V :=
  r.deserialize_any v

/-- DbRow::deserialize_i32 (from `delegate_to_deserialize_any!`). -/
def DbRow.deserialize_i32 (r : DbRow) (v : RowVisitor V) : Outcome V :=
  r.deserialize_any v

/-- DbRow::deserialize_i64 (from `delegate_to_deserialize_any!`). -/
def DbRow.deserialize_i64 (r : DbRow) (v : RowVisitor V) : Outcome V :=
  r.deserialize_any v

/-- DbRow::deserialize_u8 (from `delegate_to_deserialize_any!`). -/
def DbRow.deserialize_u8 (r : DbRow) (v : RowVisitor V) : Outcome V :=
  r.deserialize_any v

/-- DbRow::deserialize_u16 (from `delegate_to_deserialize_any!`). -/
def DbRow.deserialize_u16 (r : DbRow) (v : RowVisitor V) : Outcome V :=
  r.deserialize_any v

/-- DbRow::deserialize_u32 (from `delegate_to_deserialize_any!`). -/
def DbRow.deserialize_u32 (r : DbRow) (v : RowVisitor V) : Outcome V :=
  r.deserialize_any v

/-- DbRow::deserialize_u64 (from `delegate_to_deserialize_any!`). -/
def DbRow.deserialize_u64 (r : DbRow) (v : RowVisitor V) : Outcome V :=
  r.deserialize_any v

/-- DbRow::deserialize_f32 (from `delegate_to_deserialize_any!`). -/
def DbRow.deserialize_f32 (r : DbRow) (v : RowVisitor V) : Outcome V :=
  r.deserialize_any v

/-- DbRow::deserialize_f64 (from `delegate_to_deserialize_any!`). -/
def DbRow.deserialize_f64 (r : DbRow) (v : RowVisitor V) : Outcome V :=
  r.deserialize_any v

/-- DbRow::deserialize_str (from `delegate_to_deserialize_any!`). -/
def DbRow.deserialize_str (r : DbRow) (v : RowVisitor V) : Outcome V :=
  r.deserialize_any v

/-- DbRow::deserialize_string (from `delegate_to_deserialize_any!`). -/
def DbRow.deserialize_string (r : DbRow) (v : RowVisitor V) : Outcome V :=
  r.deserialize_any v

/-- DbRow::deserialize_unit (from `delegate_to_deserialize_any!`). -/
def DbRow.deserialize_unit (r : DbRow) (v : RowVisitor V) : Outcome V :=
  r.deserialize_any v

/-- DbRow::deserialize_bytes (from `delegate_to_deserialize_any!`). -/
def DbRow.deserialize_bytes (r : DbRow) (v : RowVisitor V) : Outcome V :=
  r.deserialize_any v

/-- DbRow::deserialize_byte_buf (from `delegate_to_deserialize_any!`). -/
def DbRow.deserialize_byte_buf (r : DbRow) (v : RowVisitor V) : Outcome V :=
  r.deserialize_any v

/-- DbRow::deserialize_identifier (from `delegate_to_deserialize_any!`). -/
def DbRow.deserialize_identifier (r : DbRow) (v : RowVisitor V) : Outcome V :=
  r.deserialize_any v

/-- DbRow::deserialize_unit_struct: delegates to `deserialize_any`. -/
def DbRow.deserialize_unit_struct (r : DbRow) (_nm : String)
    (v : RowVisitor V) : Outcome V :=
  r.deserialize_any v

/-- DbRow::deserialize_option: always `visit_some(self)`. -/
def DbRow.deserialize_option (r : DbRow) (v : RowVisitor V) : Outcome V :=
  v.visitSome r

/-- DbRow::deserialize_newtype_struct: `visit_newtype_struct(self)`. -/
def DbRow.deserialize_newtype_struct (r : DbRow) (_nm : String)
    (v : RowVisitor V) : Outcome V :=
  v.visitNewtypeStruct r

/-- DbRow::deserialize_tuple: reject with `Error::custom("")` when the
requested arity differs from the row's width, otherwise behave as a
sequence request. -/
def DbRow.deserialize_tuple (r : DbRow) (len : Nat) (v : RowVisitor V) : Outcome V :=
  if len ≠ r.width then .err (.Custom "")
  else r.deserialize_seq v

/-- DbRow::deserialize_tuple_struct: same arity check as
`deserialize_tuple`, then a sequence request. -/
def DbRow.deserialize_tuple_struct (r : DbRow) (_nm : String) (len : Nat)
    (v : RowVisitor V) : Outcome V :=
  if len ≠ r.width then .err (.Custom "")
  else r.deserialize_seq v

/-- DbRow::deserialize_map: `visit_map` on a cursor starting at index 0. -/
def DbRow.deserialize_map (r : DbRow) (v : RowVisitor V) : Outcome V :=
  v.visitMap ⟨r, 0⟩

/-- DbRow::deserialize_struct: declared field list ignored; `visit_map` on a
cursor starting at index 0. -/
def DbRow.deserialize_struct (r : DbRow) (_nm : String) (_fields : List String)
    (v : RowVisitor V) : Outcome V :=
  v.visitMap ⟨r, 0⟩

/-- DbRow::deserialize_enum: delegates to `deserialize_any`. -/
def DbRow.deserialize_enum (r : DbRow) (_nm : String) (_variants : List String)
    (v : RowVisitor V) : Outcome V :=
  r.deserialize_any v

/-- DbRow::deserialize_ignored_any: `visit_none`, no store access. -/
def DbRow.deserialize_ignored_any (_r : DbRow) (v : RowVisitor V) : Outcome V :=
  v.visitNone

/-- Canonical ordinal consumer loop: repeatedly call `next_element_seed`
starting at index `i`, collecting elements until completion is signalled or
an error or panic aborts the traversal. -/
def drainSeqFrom (dec : Column → Outcome α) (r : DbRow) (i : Nat) :
    Outcome (List α) :=
  if _h : i < r.width then
    match (MapSeqqDeserializer.next_element_seed dec ⟨r, i⟩).1 with
    | .ok none => .ok []
    | .ok (some a) => (drainSeqFrom dec r (i + 1)).map (fun l => a :: l)
    | .err e => .err e
    | .panic m => .panic m
  else .ok []
termination_by r.width - i

/-- Canonical named consumer loop: repeatedly call `next_key_seed`; on a key,
call `next_value_seed` against the state the key request returned (the same
index, since key requests do not advance), collect the pair, and continue at
the advanced index. -/
def drainMapFrom (kd : String → Outcome κ) (vd : Column → Outcome α)
    (r : DbRow) (i : Nat) : Outcome (List (κ × α)) :=
  if _h : i < r.width then
    match (MapSeqqDeserializer.next_key_seed kd ⟨r, i⟩).1 with
    | .ok none => .ok []
    | .ok (some k) =>
      match (MapSeqqDeserializer.next_value_seed vd
          (MapSeqqDeserializer.next_key_seed kd ⟨r, i⟩).2).1 with
      | .ok a => (drainMapFrom kd vd r (i + 1)).map (fun l => (k, a) :: l)
      | .err e => .err e
      | .panic m => .panic m
    | .err e => .err e
    | .panic m => .panic m
  else .ok []
termination_by r.width - i

/-- Classifier: is the outcome a returned `DecodeError`? -/
def Outcome.isDecodeErr : Outcome V → Bool
  | .err (.DecodeError _) => true
  | _ => false

/-- Modelled from the spec (refinement comparison for the explicit-primitive
claim): "decode directly against the raw payload using that target type" for
the target type u64. Postgres integer payloads are signed, so a u64 decode
succeeds exactly on a non-negative 8-byte integer payload. -/
def decodeU64PerSpec : Raw → Except String Nat
  | .int 8 v => if 0 ≤ v then .ok v.toNat else .error "value out of range for u64"
  | .null => .error "unexpected null"
  | _ => .error "mismatched types for u64"

/-- Modelled from the spec (refinement comparison for the explicit-primitive
claim): a u64 request that decodes as u64 and surfaces the value through the
u64 visitor, with failures as DecodeError. -/
def u64RequestPerSpec (d : DbColumn) (v : ColumnVisitor V) : Outcome V :=
  decodeVisit decodeU64PerSpec v.visitU64 d

/-- Concrete column visitor used by the concrete witnesses: it records which
visit method was invoked. -/
def tvCol : ColumnVisitor String where
  visitBool := fun _ => .ok "bool"
  visitI8 := fun _ => .ok "i8"
  visitI16 := fun _ => .ok "i16"
  visitI32 := fun _ => .ok "i32"
  visitI64 := fun _ => .ok "i64"
  visitU64 := fun _ => .ok "u64"
  visitF32 := fun _ => .ok "f32"
  visitF64 := fun _ => .ok "f64"
  visitStr := fun s => .ok s
  visitString := fun s => .ok s
  visitBytes := fun _ => .ok "bytes"
  visitByteBuf := fun _ => .ok "byteBuf"
  visitChar := fun c => .ok (String.mk [c])
  visitNone := .ok "none"
  visitSome := fun _ => .ok "some"
  visitUnit := .ok "unit"
  visitNewtypeStruct := fun _ => .ok "newtype"

/-- Concrete row visitor used by the concrete witnesses. -/
def tvRow : RowVisitor String where
  visitSeq := fun s => .ok (String.append "seq at " (toString s.index))
  visitMap := fun s => .ok (String.append "map at " (toString s.index))
  visitSome := fun _ => .ok "some"
  visitNewtypeStruct := fun _ => .ok "newtype"
  visitNone := .ok "none"

/-- Concrete three-column example row used by the concrete witnesses,
matching the spec's end-to-end scenario row. -/
def rowEx : DbRow :=
  ⟨[⟨"id", "INT4", .int 4 7⟩,
    ⟨"name", "TEXT", .text "not done"⟩,
    ⟨"done", "BOOL", .boolean false⟩]⟩

/-- Second concrete row of the same width but different contents, used to
show content-independence of the arity check. -/
def rowEx2 : DbRow :=
  ⟨[⟨"a", "INT8", .int 8 99⟩,
    ⟨"b", "VARCHAR", .text "done"⟩,
    ⟨"c", "BOOL", .boolean true⟩]⟩

/-- Second concrete row visitor (different output type), used to show
visitor-independence of the arity check. -/
def tvRow2 : RowVisitor Nat where
  visitSeq := fun s => .ok s.index
  visitMap := fun s => .ok s.index
  visitSome := fun _ => .ok 101
  visitNewtypeStruct := fun _ => .ok 102
  visitNone := .ok 103

/-- Raw fetch at an in-range index yields that column. -/
theorem try_get_raw_lt (r : DbRow) (i : Nat) (h : i < r.width) :
    r.try_get_raw i = .ok (r.columns.get ⟨i, h⟩) := by
  unfold DbRow.try_get_raw
  rw [List.getElem?_eq_getElem h]
  rfl

/-- Raw fetch at an out-of-range index yields an out-of-bounds store error. -/
theorem try_get_raw_oob (r : DbRow) (i : Nat) (h : r.width ≤ i) :
    r.try_get_raw i = .error (.SqlxError "ColumnIndexOutOfBounds") := by
  unfold DbRow.try_get_raw
  rw [List.getElem?_eq_none h]

/-- Element request at an in-range index: fetch, advance by one, run the seed. -/
theorem next_element_seed_lt (dec : Column → Outcome α) (r : DbRow) (i : Nat)
    (h : i < r.width) :
    MapSeqqDeserializer.next_element_seed dec ⟨r, i⟩ =
      ((dec (r.columns.get ⟨i, h⟩)).map some, ⟨r, i + 1⟩) := by
  unfold MapSeqqDeserializer.next_element_seed
  rw [if_neg (by simpa using Nat.not_le.mpr h), try_get_raw_lt r i h]

/-- Element request at or past the width: completion, state untouched. -/
theorem next_element_seed_done (dec : Column → Outcome α) (r : DbRow) (i : Nat)
    (h : r.width ≤ i) :
    MapSeqqDeserializer.next_element_seed dec ⟨r, i⟩ = (.ok none, ⟨r, i⟩) := by
  unfold MapSeqqDeserializer.next_element_seed
  rw [if_pos (by simpa using h)]

/-- Key request at an in-range index: the seed runs on the raw column name
and the state is untouched. -/
theorem next_key_seed_lt (kd : String → Outcome κ) (r : DbRow) (i : Nat)
    (h : i < r.width) :
    MapSeqqDeserializer.next_key_seed kd ⟨r, i⟩ =
      ((kd (r.columns.get ⟨i, h⟩).name).map some, ⟨r, i⟩) := by
  unfold MapSeqqDeserializer.next_key_seed
  rw [if_neg (by simpa using Nat.not_le.mpr h), List.getElem?_eq_getElem h]
  rfl

/-- Key request at or past the width: completion, state untouched. -/
theorem next_key_seed_done (kd : String → Outcome κ) (r : DbRow) (i : Nat)
    (h : r.width ≤ i) :
    MapSeqqDeserializer.next_key_seed kd ⟨r, i⟩ = (.ok none, ⟨r, i⟩) := by
  unfold MapSeqqDeserializer.next_key_seed
  rw [if_pos (by simpa using h)]

/-- Key request never changes the cursor state, in every case. -/
theorem next_key_seed_state (kd : String → Outcome κ) (s : MapSeqqState) :
    (MapSeqqDeserializer.next_key_seed kd s).2 = s := by
  unfold MapSeqqDeserializer.next_key_seed
  split
  · rfl
  · split <;> rfl

/-- Value request at an in-range index: fetch, run the seed, advance by one. -/
theorem next_value_seed_lt (vd : Column → Outcome α) (r : DbRow) (i : Nat)
    (h : i < r.width) :
    MapSeqqDeserializer.next_value_seed vd ⟨r, i⟩ =
      (vd (r.columns.get ⟨i, h⟩), ⟨r, i + 1⟩) := by
  unfold MapSeqqDeserializer.next_value_seed
  rw [try_get_raw_lt r i h]

/-- Value request at or past the width: a store error, state untouched. -/
theorem next_value_seed_oob (vd : Column → Outcome α) (r : DbRow) (i : Nat)
    (h : r.width ≤ i) :
    MapSeqqDeserializer.next_value_seed vd ⟨r, i⟩ =
      (.err (.SqlxError "ColumnIndexOutOfBounds"), ⟨r, i⟩) := by
  unfold MapSeqqDeserializer.next_value_seed
  rw [try_get_raw_oob r i h]

/-- Ordinal drain with an always-succeeding seed maps the seed over the
columns from the start index on. -/
theorem drainSeqFrom_total (f : Column → α) (r : DbRow) :
    ∀ (n i : Nat), r.width - i = n →
      drainSeqFrom (fun c => .ok (f c)) r i = .ok ((r.columns.drop i).map f) := by
  intro n
  induction n with
  | zero =>
    intro i hi
    have h : ¬ i < r.width := by omega
    rw [drainSeqFrom, dif_neg h]
    rw [List.drop_eq_nil_of_le (by simpa [DbRow.width] using Nat.not_lt.mp h)]
    rfl
  | succ n ih =>
    intro i hi
    have h : i < r.width := by omega
    have hlen : i < r.columns.length := by simpa [DbRow.width] using h
    have hmap : i < (r.columns.map f).length := by simpa using hlen
    rw [drainSeqFrom, dif_pos h, next_element_seed_lt (fun c => .ok (f c)) r i h]
    simp only [Outcome.map]
    rw [ih (i + 1) (by omega)]
    simp only [Outcome.map, List.get_eq_getElem, List.map_drop]
    rw [List.drop_eq_getElem_cons hmap]
    simp

/-- Named drain with the identity key seed and an always-succeeding value
seed pairs each raw column name with the seeded value, from the start index
on. -/
theorem drainMapFrom_total (f : Column → α) (r : DbRow) :
    ∀ (n i : Nat), r.width - i = n →
      drainMapFrom (fun s => .ok s) (fun c => .ok (f c)) r i =
        .ok ((r.columns.drop i).map (fun c => (c.name, f c))) := by
  intro n
  induction n with
  | zero =>
    intro i hi
    have h : ¬ i < r.width := by omega
    rw [drainMapFrom, dif_neg h]
    rw [List.drop_eq_nil_of_le (by simpa [DbRow.width] using Nat.not_lt.mp h)]
    rfl
  | succ n ih =>
    intro i hi
    have h : i < r.width := by omega
    have hlen : i < r.columns.length := by simpa [DbRow.width] using h
    have hmap : i < (r.columns.map (fun c => (c.name, f c))).length := by
      simpa using hlen
    rw [drainMapFrom, dif_pos h, next_key_seed_lt (fun s => .ok s) r i h]
    simp only [Outcome.map]
    rw [next_value_seed_lt (fun c => .ok (f c)) r i h]
    simp only
    rw [ih (i + 1) (by omega)]
    simp only [Outcome.map, List.get_eq_getElem, List.map_drop]
    rw [List.drop_eq_getElem_cons hmap]
    simp

/-- C2: for every Record of width N and every requested tuple or
tuple-struct arity L, if L differs from N the record-level request fails
with the protocol error `Error::Custom` — for every visitor and every
column content — and if L equals N it proceeds exactly as the ordinal
sequence request. -/
theorem c2_tuple_arity_protocol_error {V : Type} (r : DbRow) (len : Nat)
    (nm : String) (v : RowVisitor V) :
    (len ≠ r.width →
      r.deserialize_tuple len v = .err (.Custom "") ∧
      r.deserialize_tuple_struct nm len v = .err (.Custom "")) ∧
    (len = r.width →
      r.deserialize_tuple len v = r.deserialize_seq v ∧
      r.deserialize_tuple_struct nm len v = r.deserialize_seq v) := by
  constructor
  · intro h
    exact ⟨by simp [DbRow.deserialize_tuple, h],
      by simp [DbRow.deserialize_tuple_struct, h]⟩
  · intro h
    exact ⟨by simp [DbRow.deserialize_tuple, h],
      by simp [DbRow.deserialize_tuple_struct, h]⟩

/-- C2 witness: a tuple request of arity 2 on the concrete width-3 row
fails with the protocol error, for both tuple and tuple-struct. -/
theorem c2_tuple_arity_protocol_error_witness :
    DbRow.deserialize_tuple rowEx 2 tvRow = .err (.Custom "") ∧
    DbRow.deserialize_tuple_struct rowEx "Todo" 2 tvRow = .err (.Custom "") :=
  (c2_tuple_arity_protocol_error rowEx 2 "Todo" tvRow).1 (by decide)

/-- C3: ordinal traversal of a width-N Record with an always-succeeding
seed emits exactly N elements (the canonical consumer loop collects one
value per column); an element request below the width emits the element at
the cursor and advances by one; an element request at or past the width
signals completion with the state untouched, so every further request
signals completion again. -/
theorem c3_seq_traversal_exact_width {α : Type} (r : DbRow) (f : Column → α) :
    (∃ l, drainSeqFrom (fun c => .ok (f c)) r 0 = .ok l ∧ l.length = r.width) ∧
    (∀ (i : Nat) (h : i < r.width),
      MapSeqqDeserializer.next_element_seed (fun c => .ok (f c)) ⟨r, i⟩ =
        (.ok (some (f (r.columns.get ⟨i, h⟩))), ⟨r, i + 1⟩)) ∧
    (∀ {β : Type} (dec : Column → Outcome β) (i : Nat), r.width ≤ i →
      MapSeqqDeserializer.next_element_seed dec ⟨r, i⟩ = (.ok none, ⟨r, i⟩)) := by
  refine ⟨⟨r.columns.map f, ?_, by simp [DbRow.width]⟩, ?_, ?_⟩
  · simpa using drainSeqFrom_total f r (r.width - 0) 0 rfl
  · intro i h
    rw [next_element_seed_lt (fun c => .ok (f c)) r i h]
    rfl
  · intro β dec i hle
    exact next_element_seed_done dec r i hle

/-- C3 witness: on the concrete width-3 row, the first element request
emits the element at index 0 and advances to index 1, and requests at
index 3 signal completion without moving the cursor. -/
theorem c3_seq_traversal_exact_width_witness :
    MapSeqqDeserializer.next_element_seed (fun c => Outcome.ok c.name)
      ⟨rowEx, 0⟩ = (.ok (some "id"), ⟨rowEx, 1⟩) ∧
    MapSeqqDeserializer.next_element_seed (fun c => Outcome.ok c.name)
      ⟨rowEx, 3⟩ = (.ok none, ⟨rowEx, 3⟩) :=
  ⟨((c3_seq_traversal_exact_width rowEx (fun c => c.name)).2.1 0
      (by decide)).trans rfl,
    (c3_seq_traversal_exact_width rowEx (fun c => c.name)).2.2
      (fun c => Outcome.ok c.name) 3 (by decide)⟩

/-- C4: named traversal with the identity key seed emits exactly N
(key, value) pairs in Record order; the keys are exactly the raw column
names in order, and the values are exactly the values the ordinal traversal
emits, at the same indices in the same order. -/
theorem c4_named_traversal_pairs {α : Type} (r : DbRow) (f : Column → α) :
    drainMapFrom (fun s => .ok s) (fun c => .ok (f c)) r 0 =
      .ok (r.columns.map (fun c => (c.name, f c))) ∧
    (r.columns.map (fun c => (c.name, f c))).length = r.width ∧
    (r.columns.map (fun c => (c.name, f c))).map Prod.fst =
      r.columns.map Column.name ∧
    drainSeqFrom (fun c => .ok (f c)) r 0 =
      .ok ((r.columns.map (fun c => (c.name, f c))).map Prod.snd) := by
  refine ⟨?_, by simp [DbRow.width], by simp, ?_⟩
  · simpa using drainMapFrom_total f r (r.width - 0) 0 rfl
  · simpa using drainSeqFrom_total f r (r.width - 0) 0 rfl

/-- C5: every unconstrained record-level request — any, bool, char, every
signed and unsigned integer width, both float widths, str and string, unit,
bytes and byte-buf, identifier, enum and unit-struct — produces exactly the
result of the sequence request on that Record, for every visitor. -/
theorem c5_unconstrained_requests_degrade_to_seq {V : Type} (r : DbRow)
    (v : RowVisitor V) :
    r.deserialize_any v = r.deserialize_seq v ∧
    r.deserialize_bool v = r.deserialize_seq v ∧
    r.deserialize_char v = r.deserialize_seq v ∧
    r.deserialize_i8 v = r.deserialize_seq v ∧
    r.deserialize_i16 v = r.deserialize_seq v ∧
    r.deserialize_i32 v = r.deserialize_seq v ∧
    r.deserialize_i64 v = r.deserialize_seq v ∧
    r.deserialize_u8 v = r.deserialize_seq v ∧
    r.deserialize_u16 v = r.deserialize_seq v ∧
    r.deserialize_u32 v = r.deserialize_seq v ∧
    r.deserialize_u64 v = r.deserialize_seq v ∧
    r.deserialize_f32 v = r.deserialize_seq v ∧
    r.deserialize_f64 v = r.deserialize_seq v ∧
    r.deserialize_str v = r.deserialize_seq v ∧
    r.deserialize_string v = r.deserialize_seq v ∧
    r.deserialize_unit v = r.deserialize_seq v ∧
    r.deserialize_bytes v = r.deserialize_seq v ∧
    r.deserialize_byte_buf v = r.deserialize_seq v ∧
    r.deserialize_identifier v = r.deserialize_seq v ∧
    (∀ (nm : String) (variants : List String),
      r.deserialize_enum nm variants v = r.deserialize_seq v) ∧
    (∀ nm : String, r.deserialize_unit_struct nm v = r.deserialize_seq v) :=
  ⟨rfl, rfl, rfl, rfl, rfl, rfl, rfl, rfl, rfl, rfl, rfl, rfl, rfl, rfl,
    rfl, rfl, rfl, rfl, rfl, fun _ _ => rfl, fun _ => rfl⟩

/-- C9: on the named-traversal path a key request never changes the cursor
state (so repeated key requests return the same column's name); a value
request below the width advances the index by exactly one regardless of the
seed's outcome; end-of-data is signalled only by the key request, while a
value request issued at an index equal to the width returns a store error
rather than a completion signal. -/
theorem c9_key_value_cursor_discipline {κ α : Type} (r : DbRow) (i : Nat)
    (kd : String → Outcome κ) (vd : Column → Outcome α) :
    (MapSeqqDeserializer.next_key_seed kd ⟨r, i⟩).2 = ⟨r, i⟩ ∧
    MapSeqqDeserializer.next_key_seed kd
        (MapSeqqDeserializer.next_key_seed kd ⟨r, i⟩).2 =
      MapSeqqDeserializer.next_key_seed kd ⟨r, i⟩ ∧
    (∀ h : i < r.width,
      (MapSeqqDeserializer.next_key_seed kd ⟨r, i⟩).1 =
        (kd (r.columns.get ⟨i, h⟩).name).map some) ∧
    (i < r.width →
      (MapSeqqDeserializer.next_value_seed vd ⟨r, i⟩).2 = ⟨r, i + 1⟩) ∧
    (r.width ≤ i →
      MapSeqqDeserializer.next_key_seed kd ⟨r, i⟩ = (.ok none, ⟨r, i⟩)) ∧
    (i = r.width →
      MapSeqqDeserializer.next_value_seed vd ⟨r, i⟩ =
        (.err (.SqlxError "ColumnIndexOutOfBounds"), ⟨r, i⟩)) := by
  refine ⟨next_key_seed_state kd ⟨r, i⟩, ?_, ?_, ?_, ?_, ?_⟩
  · rw [next_key_seed_state kd ⟨r, i⟩]
  · intro h
    rw [next_key_seed_lt kd r i h]
  · intro h
    rw [next_value_seed_lt vd r i h]
  · intro h
    exact next_key_seed_done kd r i h
  · intro h
    exact next_value_seed_oob vd r i (le_of_eq h.symm)

/-- C9 witness: on the concrete width-3 row, the key request at index 1
yields the raw name without moving the cursor, the value request at index 1
advances to index 2, and the value request at index 3 (the width) returns
the store error instead of a completion signal. -/
theorem c9_key_value_cursor_discipline_witness :
    (MapSeqqDeserializer.next_key_seed (fun s => Outcome.ok s)
        ⟨rowEx, 1⟩).1 = .ok (some "name") ∧
    (MapSeqqDeserializer.next_value_seed (fun c => Outcome.ok c.name)
        ⟨rowEx, 1⟩).2 = ⟨rowEx, 2⟩ ∧
    MapSeqqDeserializer.next_value_seed (fun c => Outcome.ok c.name)
        ⟨rowEx, 3⟩ =
      (.err (.SqlxError "ColumnIndexOutOfBounds"), ⟨rowEx, 3⟩) :=
  ⟨((c9_key_value_cursor_discipline rowEx 1 (fun s => Outcome.ok s)
      (fun c => Outcome.ok c.name)).2.2.1 (by decide)).trans rfl,
    (c9_key_value_cursor_discipline rowEx 1 (fun s => Outcome.ok s)
      (fun c => Outcome.ok c.name)).2.2.2.1 (by decide),
    (c9_key_value_cursor_discipline rowEx 3 (fun s => Outcome.ok s)
      (fun c => Outcome.ok c.name)).2.2.2.2.2 (by decide)⟩

/-- C10: when a tuple or tuple-struct request fails the arity check, the
result is the constant protocol error: it is the same for every visitor and
for every row of that width regardless of column contents, so no element is
emitted, no store fetch happens, and no cursor is ever handed to the
consumer. -/
theorem c10_arity_mismatch_pure_failure {V W : Type} (r r2 : DbRow)
    (len : Nat) (nm nm2 : String) (v : RowVisitor V) (v2 : RowVisitor W)
    (hw : r.width = r2.width) (h : len ≠ r.width) :
    r.deserialize_tuple len v = .err (.Custom "") ∧
    r2.deserialize_tuple len v2 = .err (.Custom "") ∧
    r.deserialize_tuple_struct nm len v = .err (.Custom "") ∧
    r2.deserialize_tuple_struct nm2 len v2 = .err (.Custom "") := by
  have h2 : len ≠ r2.width := hw ▸ h
  exact ⟨by simp [DbRow.deserialize_tuple, h],
    by simp [DbRow.deserialize_tuple, h2],
    by simp [DbRow.deserialize_tuple_struct, h],
    by simp [DbRow.deserialize_tuple_struct, h2]⟩

/-- C10 witness: an arity-1 tuple request on two different width-3 rows,
with two different visitors of different output types, yields the same
constant protocol error in every combination. -/
theorem c10_arity_mismatch_pure_failure_witness :
    DbRow.deserialize_tuple rowEx 1 tvRow = .err (.Custom "") ∧
    DbRow.deserialize_tuple rowEx2 1 tvRow2 = .err (.Custom "") ∧
    DbRow.deserialize_tuple_struct rowEx "Todo" 1 tvRow = .err (.Custom "") ∧
    DbRow.deserialize_tuple_struct rowEx2 "Pair" 1 tvRow2 =
      .err (.Custom "") :=
  c10_arity_mismatch_pure_failure rowEx rowEx2 1 "Todo" "Pair" tvRow tvRow2
    (by decide) (by decide)

/-- C1 counterexample: a column whose type tag (here FLOAT8) is outside the
dispatch table, requested via the any path, panics at `unimplemented!()`
instead of failing with a returned DecodeError — so the claim that the
request fails with a DecodeError is false. -/
theorem c1_unknown_tag_counterexample :
    DbColumn.deserialize_any ⟨⟨"score", "FLOAT8", Raw.float8 0⟩⟩ tvCol =
      .panic "not implemented" ∧
    (DbColumn.deserialize_any ⟨⟨"score", "FLOAT8", Raw.float8 0⟩⟩
        tvCol).isDecodeErr = false :=
  ⟨rfl, rfl⟩

/-- C1 (amended): the any request dispatches solely on the column's type
tag through the fixed table — INT8 to the 64-bit integer decode, INT4 to
32-bit, INT2 to 16-bit, TEXT and VARCHAR to string, BOOL to bool — and for
every tag outside the table it fails loudly by panicking at
`unimplemented!()`, never returning a default, empty, or stringified
value. -/
theorem c1_any_dispatch_table {V : Type} (d : DbColumn) (v : ColumnVisitor V) :
    (d.column.typeTag = "INT8" → d.deserialize_any v = d.deserialize_i64 v) ∧
    (d.column.typeTag = "INT4" → d.deserialize_any v = d.deserialize_i32 v) ∧
    (d.column.typeTag = "INT2" → d.deserialize_any v = d.deserialize_i16 v) ∧
    (d.column.typeTag = "TEXT" ∨ d.column.typeTag = "VARCHAR" →
      d.deserialize_any v = d.deserialize_str v) ∧
    (d.column.typeTag = "BOOL" → d.deserialize_any v = d.deserialize_bool v) ∧
    (d.column.typeTag ∉
        (["INT8", "INT4", "INT2", "TEXT", "VARCHAR", "BOOL"] : List String) →
      d.deserialize_any v = .panic "not implemented") := by
  obtain ⟨⟨nm, tag, val⟩⟩ := d
  refine ⟨?_, ?_, ?_, ?_, ?_, ?_⟩
  · intro h
    simp only at h
    subst h
    rfl
  · intro h
    simp only at h
    subst h
    rfl
  · intro h
    simp only at h
    subst h
    rfl
  · intro h
    simp only at h
    rcases h with h | h <;> (subst h; rfl)
  · intro h
    simp only at h
    subst h
    rfl
  · intro h
    simp only [List.mem_cons, List.mem_singleton] at h
    push_neg at h
    unfold DbColumn.deserialize_any
    split <;> simp_all

/-- C1 witness: on a concrete INT8-tagged column the any request takes the
64-bit integer decode path, and on a concrete TIMESTAMPTZ-tagged column it
panics at `unimplemented!()`. -/
theorem c1_any_dispatch_table_witness :
    DbColumn.deserialize_any ⟨⟨"id", "INT8", Raw.int 8 7⟩⟩ tvCol =
      DbColumn.deserialize_i64 ⟨⟨"id", "INT8", Raw.int 8 7⟩⟩ tvCol ∧
    DbColumn.deserialize_any ⟨⟨"ts", "TIMESTAMPTZ", Raw.text "2024"⟩⟩ tvCol =
      .panic "not implemented" :=
  ⟨(c1_any_dispatch_table ⟨⟨"id", "INT8", Raw.int 8 7⟩⟩ tvCol).1 rfl,
    (c1_any_dispatch_table ⟨⟨"ts", "TIMESTAMPTZ", Raw.text "2024"⟩⟩
      tvCol).2.2.2.2.2 (by decide)⟩

/-- C6 counterexample: the explicit u64 request on an 8-byte payload
holding -1 succeeds through the signed 64-bit decode path and surfaces the
value through the signed visitor method, while decoding the payload as the
requested target type u64 (the spec-side model) fails with a DecodeError —
so the claim that the raw payload is decoded using the requested target
type, failing with a DecodeError on mismatch, is false for the unsigned
requests. -/
theorem c6_u64_signed_path_counterexample :
    DbColumn.deserialize_u64 ⟨⟨"n", "INT8", Raw.int 8 (-1)⟩⟩ tvCol =
      .ok "i64" ∧
    u64RequestPerSpec ⟨⟨"n", "INT8", Raw.int 8 (-1)⟩⟩ tvCol =
      .err (.DecodeError "value out of range for u64") := by
  constructor
  · rfl
  · rfl

/-- C6 (amended): explicit signed-integer, float, string, bool and bytes
requests decode the raw payload using exactly the requested target type,
ignoring the declared type tag; a decode failure surfaces as a returned
DecodeError and a decode success is handed to the visitor unchanged (never
a default substitution); the unsigned requests u8, u16, u32 and u64 instead
take the signed decode path of the same width, surfacing the value through
the signed visitor method. -/
theorem c6_explicit_primitive_decode {V : Type} (d : DbColumn)
    (v : ColumnVisitor V) :
    (∀ n, decodeI8 d.column.value = .ok n →
      d.deserialize_i8 v = v.visitI8 n) ∧
    (∀ e, decodeI8 d.column.value = .error e →
      d.deserialize_i8 v = .err (.DecodeError e)) ∧
    (∀ t, DbColumn.deserialize_i8 ⟨⟨d.column.name, t, d.column.value⟩⟩ v =
      d.deserialize_i8 v) ∧
    (∀ n, decodeI16 d.column.value = .ok n →
      d.deserialize_i16 v = v.visitI16 n) ∧
    (∀ e, decodeI16 d.column.value = .error e →
      d.deserialize_i16 v = .err (.DecodeError e)) ∧
    (∀ t, DbColumn.deserialize_i16 ⟨⟨d.column.name, t, d.column.value⟩⟩ v =
      d.deserialize_i16 v) ∧
    (∀ n, decodeI32 d.column.value = .ok n →
      d.deserialize_i32 v = v.visitI32 n) ∧
    (∀ e, decodeI32 d.column.value = .error e →
      d.deserialize_i32 v = .err (.DecodeError e)) ∧
    (∀ t, DbColumn.deserialize_i32 ⟨⟨d.column.name, t, d.column.value⟩⟩ v =
      d.deserialize_i32 v) ∧
    (∀ n, decodeI64 d.column.value = .ok n →
      d.deserialize_i64 v = v.visitI64 n) ∧
    (∀ e, decodeI64 d.column.value = .error e →
      d.deserialize_i64 v = .err (.DecodeError e)) ∧
    (∀ t, DbColumn.deserialize_i64 ⟨⟨d.column.name, t, d.column.value⟩⟩ v =
      d.deserialize_i64 v) ∧
    (∀ bits, decodeF32 d.column.value = .ok bits →
      d.deserialize_f32 v = v.visitF32 bits) ∧
    (∀ e, decodeF32 d.column.value = .error e →
      d.deserialize_f32 v = .err (.DecodeError e)) ∧
    (∀ t, DbColumn.deserialize_f32 ⟨⟨d.column.name, t, d.column.value⟩⟩ v =
      d.deserialize_f32 v) ∧
    (∀ bits, decodeF64 d.column.value = .ok bits →
      d.deserialize_f64 v = v.visitF64 bits) ∧
    (∀ e, decodeF64 d.column.value = .error e →
      d.deserialize_f64 v = .err (.DecodeError e)) ∧
    (∀ t, DbColumn.deserialize_f64 ⟨⟨d.column.name, t, d.column.value⟩⟩ v =
      d.deserialize_f64 v) ∧
    (∀ b, decodeBool d.column.value = .ok b →
      d.deserialize_bool v = v.visitBool b) ∧
    (∀ e, decodeBool d.column.value = .error e →
      d.deserialize_bool v = .err (.DecodeError e)) ∧
    (∀ t, DbColumn.deserialize_bool ⟨⟨d.column.name, t, d.column.value⟩⟩ v =
      d.deserialize_bool v) ∧
    (∀ s, decodeText d.column.value = .ok s →
      d.deserialize_str v = v.visitStr s) ∧
    (∀ e, decodeText d.column.value = .error e →
      d.deserialize_str v = .err (.DecodeError e)) ∧
    (∀ t, DbColumn.deserialize_str ⟨⟨d.column.name, t, d.column.value⟩⟩ v =
      d.deserialize_str v) ∧
    (∀ s, decodeText d.column.value = .ok s →
      d.deserialize_string v = v.visitString s) ∧
    (∀ e, decodeText d.column.value = .error e →
      d.deserialize_string v = .err (.DecodeError e)) ∧
    (∀ t, DbColumn.deserialize_string ⟨⟨d.column.name, t, d.column.value⟩⟩ v =
      d.deserialize_string v) ∧
    (∀ bs, decodeBytea d.column.value = .ok bs →
      d.deserialize_bytes v = v.visitBytes bs) ∧
    (∀ e, decodeBytea d.column.value = .error e →
      d.deserialize_bytes v = .err (.DecodeError e)) ∧
    (∀ t, DbColumn.deserialize_bytes ⟨⟨d.column.name, t, d.column.value⟩⟩ v =
      d.deserialize_bytes v) ∧
    (∀ bs, decodeBytea d.column.value = .ok bs →
      d.deserialize_byte_buf v = v.visitByteBuf bs) ∧
    (∀ e, decodeBytea d.column.value = .error e →
      d.deserialize_byte_buf v = .err (.DecodeError e)) ∧
    (∀ t, DbColumn.deserialize_byte_buf ⟨⟨d.column.name, t, d.column.value⟩⟩ v =
      d.deserialize_byte_buf v) ∧
    d.deserialize_u8 v = d.deserialize_i8 v ∧
    d.deserialize_u16 v = d.deserialize_i16 v ∧
    d.deserialize_u32 v = d.deserialize_i32 v ∧
    d.deserialize_u64 v = d.deserialize_i64 v := by
  refine ⟨?_, ?_, fun t => rfl, ?_, ?_, fun t => rfl, ?_, ?_, fun t => rfl,
    ?_, ?_, fun t => rfl, ?_, ?_, fun t => rfl, ?_, ?_, fun t => rfl,
    ?_, ?_, fun t => rfl, ?_, ?_, fun t => rfl, ?_, ?_, fun t => rfl,
    ?_, ?_, fun t => rfl, ?_, ?_, fun t => rfl, rfl, rfl, rfl, rfl⟩
  all_goals intro x hx
  all_goals simp [DbColumn.deserialize_i8, DbColumn.deserialize_i16,
    DbColumn.deserialize_i32, DbColumn.deserialize_i64,
    DbColumn.deserialize_f32, DbColumn.deserialize_f64,
    DbColumn.deserialize_bool, DbColumn.deserialize_str,
    DbColumn.deserialize_string, DbColumn.deserialize_bytes,
    DbColumn.deserialize_byte_buf, decodeVisit, hx]

/-- C6 witness: on a concrete 1-byte payload holding 5, the explicit i8
request hands exactly the decoded value 5 to the 8-bit visitor; on a
concrete text payload, the explicit i32 request fails with the DecodeError
cause of the failed i32 decode. -/
theorem c6_explicit_primitive_decode_witness :
    DbColumn.deserialize_i8 ⟨⟨"flag", "CHAR", Raw.int 1 5⟩⟩ tvCol =
      tvCol.visitI8 5 ∧
    DbColumn.deserialize_i32 ⟨⟨"name", "TEXT", Raw.text "x"⟩⟩ tvCol =
      .err (.DecodeError "mismatched types for i32") :=
  ⟨(c6_explicit_primitive_decode ⟨⟨"flag", "CHAR", Raw.int 1 5⟩⟩ tvCol).1
      5 rfl,
    (c6_explicit_primitive_decode ⟨⟨"name", "TEXT", Raw.text "x"⟩⟩
      tvCol).2.2.2.2.2.2.2.1 "mismatched types for i32" rfl⟩

/-- C7: an option request on a column checks the null predicate on the raw
payload: a null column yields the visitor's none handler (no decode is
performed — the result is the visitor's constant none outcome), and a
non-null column yields the visitor's some handler applied to the very same
column deserializer for continued decoding. -/
theorem c7_option_null_predicate {V : Type} (d : DbColumn)
    (v : ColumnVisitor V) :
    (d.column.value.isNull = true → d.deserialize_option v = v.visitNone) ∧
    (d.column.value.isNull = false → d.deserialize_option v = v.visitSome d) := by
  constructor
  · intro h
    simp [DbColumn.deserialize_option, h]
  · intro h
    simp [DbColumn.deserialize_option, h]

/-- C7 witness: a concrete null column requested as an option resolves to
none, and the same column with a non-null payload resolves to some wrapping
that column. -/
theorem c7_option_null_predicate_witness :
    DbColumn.deserialize_option ⟨⟨"done", "BOOL", Raw.null⟩⟩ tvCol =
      tvCol.visitNone ∧
    DbColumn.deserialize_option ⟨⟨"done", "BOOL", Raw.boolean true⟩⟩ tvCol =
      tvCol.visitSome ⟨⟨"done", "BOOL", Raw.boolean true⟩⟩ :=
  ⟨(c7_option_null_predicate ⟨⟨"done", "BOOL", Raw.null⟩⟩ tvCol).1 rfl,
    (c7_option_null_predicate ⟨⟨"done", "BOOL", Raw.boolean true⟩⟩
      tvCol).2 rfl⟩

/-- C8: a char request is served only by the 1-byte integer decode path: a
failed 1-byte decode surfaces as that decode's DecodeError; a decoded value
in the unsigned single-byte range becomes exactly that code point; a
decoded value outside the unsigned single-byte range (negative, since the
decode is signed) fails by panicking in the checked conversion rather than
being truncated or wrapped to a different character. -/
theorem c8_char_single_byte_path {V : Type} (d : DbColumn)
    (v : ColumnVisitor V) :
    (∀ e, decodeI8 d.column.value = .error e →
      d.deserialize_char v = .err (.DecodeError e)) ∧
    (∀ n, decodeI8 d.column.value = .ok n → 0 ≤ n →
      d.deserialize_char v = v.visitChar (Char.ofNat n.toNat)) ∧
    (∀ n, decodeI8 d.column.value = .ok n → n < 0 →
      d.deserialize_char v =
        .panic "called unwrap on an Err value: TryFromIntError") := by
  refine ⟨?_, ?_, ?_⟩
  · intro e he
    simp [DbColumn.deserialize_char, he]
  · intro n hn hnn
    simp [DbColumn.deserialize_char, hn, Int.not_lt.mpr hnn]
  · intro n hn hneg
    simp [DbColumn.deserialize_char, hn, hneg]

/-- C8 witness: a concrete 1-byte payload holding 65 decodes to the code
point A, a concrete 1-byte payload holding -1 panics in the checked
conversion, and a concrete text payload fails with the DecodeError of the
1-byte integer decode. -/
theorem c8_char_single_byte_path_witness :
    DbColumn.deserialize_char ⟨⟨"ch", "CHAR", Raw.int 1 65⟩⟩ tvCol =
      tvCol.visitChar (Char.ofNat 65) ∧
    DbColumn.deserialize_char ⟨⟨"ch", "CHAR", Raw.int 1 (-1)⟩⟩ tvCol =
      .panic "called unwrap on an Err value: TryFromIntError" ∧
    DbColumn.deserialize_char ⟨⟨"ch", "TEXT", Raw.text "A"⟩⟩ tvCol =
      .err (.DecodeError "mismatched types for i8") :=
  ⟨(c8_char_single_byte_path ⟨⟨"ch", "CHAR", Raw.int 1 65⟩⟩ tvCol).2.1
      65 rfl (by decide),
    (c8_char_single_byte_path ⟨⟨"ch", "CHAR", Raw.int 1 (-1)⟩⟩ tvCol).2.2
      (-1) rfl (by decide),
    (c8_char_single_byte_path ⟨⟨"ch", "TEXT", Raw.text "A"⟩⟩ tvCol).1
      "mismatched types for i8" rfl⟩

end ActixTodoSqlx
